import Mathlib

set_option autoImplicit false

/-!
A shallow embedding of the crawl engine of the ebay_jewelry_scraper
repository: the listing extractor and crawl orchestrator
(src/scraper/core.py), the navigation helper (src/scraper/selenium_utils.py),
the product collector (src/scraper/product_collector.py) and the task
scheduler (src/scraper/scheduler.py), together with theorems about the
spec-level properties of these functions.

Conventions of the embedding:
* BeautifulSoup elements reached through a fixed selector are embedded as
  the already-stripped text (or attribute value) the selector would return,
  as an `Option String` field (`none` when `select_one` found no element).
* Python floats produced from price strings are embedded as `ℚ`.
* A caught Python exception is an explicit branch; an uncaught one is an
  `Except.error` value.
* Side effects relevant to the claims (browser sessions created, cooldown
  and backoff sleeps) are made explicit as counters or lists returned next
  to the functional result.
-/

namespace EbayScraper

/-- Value of a list of decimal digit characters, most significant first;
the empty list gives 0 (Python float accepts ".5" and "5."). -/
def digitsVal (cs : List Char) : Nat :=
  cs.foldl (fun n c => n * 10 + (c.toNat - 48)) 0

/-- Python float() applied to the character data that reaches it in
extract_price: a string drawn from digits, dots and commas with the commas
already removed.  It succeeds when there is at least one digit, at most one
dot, and nothing but digits and dots; otherwise float() raises ValueError,
embedded as `none`. -/
def pyFloat (cs : List Char) : Option ℚ :=
  if cs.any Char.isDigit ∧ cs.all (fun c => c.isDigit || c = '.')
      ∧ (cs.filter (fun c => c = '.')).length ≤ 1 then
    let ip := cs.takeWhile (fun c => c ≠ '.')
    let fp := (cs.dropWhile (fun c => c ≠ '.')).drop 1
    some ((digitsVal ip : ℚ) + (digitsVal fp : ℚ) / (10 : ℚ) ^ fp.length)
  else none

/-- Characters matched by the character class of the regex in
EbayJewelryScraper.extract_price (digits, commas and dots). -/
def isPriceChar (c : Char) : Bool := c.isDigit || c = ',' || c = '.'

/-- re.search for one-or-more price characters: the first maximal run of
such characters in the text, or `none` when the text has none. -/
def firstPriceRun : List Char → Option (List Char)
  | [] => none
  | c :: cs =>
    if isPriceChar c then some (c :: cs.takeWhile isPriceChar)
    else firstPriceRun cs

/-- Outcome of a call to extract_price: either a returned value (None or a
parsed float) or a ValueError raised out of float() and propagating to the
caller. -/
inductive PriceResult where
  | value (q : Option ℚ)
  | raised
deriving DecidableEq

/-- EbayJewelryScraper.extract_price (src/scraper/core.py lines 74-87):
empty text gives None; no regex match gives None; a match has its commas
removed and is passed to float(), whose ValueError (possible e.g. on a match
consisting only of dots or commas) propagates to the caller, embedded as
`PriceResult.raised`.  A successful parse gives `PriceResult.value (some q)`. -/
def extract_price (price_text : String) : PriceResult :=
  if price_text = "" then PriceResult.value none
  else
    match firstPriceRun price_text.toList with
    | none => PriceResult.value none
    | some run =>
      match pyFloat (run.filter (fun c => c ≠ ',')) with
      | none => PriceResult.raised
      | some q => PriceResult.value (some q)

/-- One candidate listing container, embedded as the results of the six
select_one queries extract_item_data performs on it: the stripped text of
the title, price, condition and subtitle elements, the href attribute of
the link element (selector a[href*="itm"]) and the src attribute of the
image element (selector img[src*="i.ebayimg.com"]). `none` means the
selector matched no element. -/
structure ItemElems where
  title_text : Option String
  price_text : Option String
  link_href : Option String
  img_src : Option String
  condition_text : Option String
  subtitle_text : Option String
deriving DecidableEq

/-- The dictionary extract_item_data returns for an emitted listing
(the additional description/specifications/seller_info keys merged in from
get_product_details do not touch these fields and are omitted). -/
structure ItemData where
  title : String
  price : Option ℚ
  url : String
  image_url : String
  condition : Option String
  subtitle : Option String
deriving DecidableEq

/-- EbayJewelryScraper.extract_item_data (src/scraper/core.py lines 89-131)
together with the number of browser sessions its call creates.  The code
checks only the presence of the four elements (title, price, link, image);
the price field is whatever extract_price returns, None included.  If
extract_price raises, the surrounding try/except logs and returns None.
When the record is built and its url is non-empty, get_product_details is
invoked, which creates (and quits) one fresh WebDriver via
setup_selenium_driver; the session counter records that. -/
def extract_item_data (item : ItemElems) : Option ItemData × Nat :=
  match item.title_text, item.price_text, item.link_href, item.img_src with
  | some t, some p, some href, some src =>
    match extract_price p with
    | PriceResult.raised => (none, 0)
    | PriceResult.value q =>
      let data : ItemData :=
        ⟨t, q, href, src, item.condition_text, item.subtitle_text⟩
      if href = "" then (some data, 0) else (some data, 1)
  | _, _, _, _ => (none, 0)

/-- The environment one scrape_page call runs in: the outcome of each
effectful step, plus the listing containers the page parse yields. -/
structure PageEnv where
  navOk : Bool
  waitTimedOut : Bool
  captcha : Bool
  captchaPersists : Bool
  snapshotRaises : Bool
  listings : List ItemElems
deriving DecidableEq

/-- What one scrape_page call produces: the extracted items, the number of
browser sessions created while extracting them, and the number of 30-second
CAPTCHA cooldown sleeps performed. -/
structure PageResult where
  items : List ItemData
  sessions : Nat
  cooldowns : Nat
deriving DecidableEq

/-- EbayJewelryScraper.scrape_page (src/scraper/core.py lines 186-236).
If safe_get_url fails the function returns [] at once.  Otherwise
wait_for_element runs, its return value (None on timeout) discarded; then,
if check_for_captcha reports a challenge, the code sleeps 30 seconds once
and continues unconditionally — `captchaPersists` is never consulted.  The
raw-HTML snapshot write (or any later exception before extraction) is
caught by the outer handler, which returns [].  Otherwise every listing
container goes through extract_item_data and the non-None results are
collected in order. -/
def scrape_page (env : PageEnv) : PageResult :=
  if !env.navOk then ⟨[], 0, 0⟩
  else
    let cooldowns := if env.captcha then 1 else 0
    if env.snapshotRaises then ⟨[], 0, cooldowns⟩
    else
      let extracted := env.listings.map extract_item_data
      ⟨extracted.filterMap Prod.fst, (extracted.map Prod.snd).sum, cooldowns⟩

/-- The inner `for item in items` loop of scrape_category
(src/scraper/core.py lines 269-282): items are appended one at a time, and
the loop breaks as soon as the accumulated list has reached max_items. -/
def processItems {α : Type} (max_items : Nat) : List α → List α → List α
  | all_items, [] => all_items
  | all_items, item :: rest =>
    if max_items ≤ all_items.length then all_items
    else processItems max_items (all_items ++ [item]) rest

/-- The pages `start, start+1, ...` of the given count — the values the
`page` counter of scrape_category (and the `attempt` counter of safe_get)
runs through. -/
def pageList (start : Nat) : Nat → List Nat
  | 0 => []
  | n + 1 => start :: pageList (start + 1) n

/-- The `while len(all_items) < max_items and page <= max_pages` loop of
scrape_category (src/scraper/core.py lines 260-285), parametric in the
per-page record lists scrape_page returns: the page counter only ever
increments, so the loop is the traversal of pages 1..max_pages with two
early exits — the budget check at the top and the break on an empty page. -/
def scrapeGo {α : Type} (pages : Nat → List α) (max_items : Nat) :
    List Nat → List α → List α
  | [], all_items => all_items
  | p :: rest, all_items =>
    if all_items.length < max_items then
      let items := pages p
      if items.isEmpty then all_items
      else scrapeGo pages max_items rest (processItems max_items all_items items)
    else all_items

/-- EbayJewelryScraper.scrape_category (src/scraper/core.py lines 238-299),
parametric in what scrape_page yields per page; the collected list is
returned unconditionally (the zero-record case only logs a warning). -/
def scrape_category {α : Type} (pages : Nat → List α)
    (max_items max_pages : Nat) : List α :=
  scrapeGo pages max_items (pageList 1 max_pages) []

/-- The scrape_category loop driving the real scrape_page, threading the
count of browser sessions created: the accumulator starts at 1 for the
WebDriver scrape_category itself creates before the loop, and each page
adds the sessions created by get_product_details calls during its
extraction (these happen inside the scrape_page call, before the
orchestrator looks at the items). -/
def scrapeGoEnv (env : Nat → PageEnv) (max_items : Nat) :
    List Nat → List ItemData × Nat → List ItemData × Nat
  | [], acc => acc
  | p :: rest, (all_items, sessions) =>
    if all_items.length < max_items then
      let pr := scrape_page (env p)
      if pr.items.isEmpty then (all_items, sessions + pr.sessions)
      else
        scrapeGoEnv env max_items rest
          (processItems max_items all_items pr.items, sessions + pr.sessions)
    else (all_items, sessions)

/-- scrape_category over a per-page environment, with the total number of
browser sessions created for the job. -/
def scrape_category_env (env : Nat → PageEnv) (max_items max_pages : Nat) :
    List ItemData × Nat :=
  scrapeGoEnv env max_items (pageList 1 max_pages) ([], 1)

/-- The environment one SeleniumManager.safe_get call runs in: per attempt
index, whether driver.get plus the body wait succeed without exception, and
whether _detect_antibot fires after the successful load. -/
structure NavEnv where
  navOk : Nat → Bool
  antibot : Nat → Bool

/-- What one safe_get call produces: its boolean result, the list of
inter-attempt backoff sleeps (in seconds, as drawn), and the number of
sleeps performed by _handle_antibot. -/
structure NavOutcome where
  ok : Bool
  backoffs : List ℚ
  antibotSleeps : Nat
deriving DecidableEq

/-- The `for attempt in range(max_retries)` loop of SeleniumManager.safe_get
(src/scraper/selenium_utils.py lines 118-145).  On a successful attempt:
if _detect_antibot fires, _handle_antibot sleeps once (10-20 s, uniform) and
rotates identity, and safe_get still returns True.  On a failed attempt with
`attempt < max_retries - 1`, the code sleeps uniform(2, 5) seconds —
embedded as 2 + 3 * u a for a per-attempt random draw u a in [0, 1] — and
rotates identity; the last failed attempt sleeps nothing.  If every attempt
fails the call returns False. -/
def safe_get_loop (env : NavEnv) (u : Nat → ℚ) (max_retries : Nat) :
    List Nat → NavOutcome
  | [] => ⟨false, [], 0⟩
  | a :: rest =>
    if env.navOk a then ⟨true, [], if env.antibot a then 1 else 0⟩
    else
      let r := safe_get_loop env u max_retries rest
      if a < max_retries - 1 then ⟨r.ok, (2 + 3 * u a) :: r.backoffs, r.antibotSleeps⟩
      else r

/-- SeleniumManager.safe_get: the attempt loop over range(max_retries),
default max_retries = 3. -/
def safe_get (env : NavEnv) (u : Nat → ℚ) (max_retries : Nat) : NavOutcome :=
  safe_get_loop env u max_retries (pageList 0 max_retries)

/-- The task status strings used by TaskScheduler
(src/scraper/scheduler.py). -/
inductive TaskStatus where
  | scheduled
  | queued
  | running
  | completed
  | failed
  | cancelled
deriving DecidableEq

/-- A task dictionary as stored in TaskScheduler.active_tasks, reduced to
the fields the claims touch: the status string and the rest of the
dictionary abstracted as an uninterpreted payload string, so that theorems
can state that a call left a task untouched. -/
structure STask where
  status : TaskStatus
  payload : String
deriving DecidableEq

/-- TaskScheduler.active_tasks: a dictionary from task id to task,
embedded as an association list with unique keys looked up by first
match. -/
abbrev TaskTable := List (String × STask)

/-- TaskScheduler.get_task_status (src/scraper/scheduler.py lines 174-176):
`self.active_tasks.get(task_id)` — the value when the key is present, None
otherwise, with no mutation and no exception. -/
def get_task_status (table : TaskTable) (task_id : String) : Option STask :=
  table.lookup task_id

/-- The in-place mutation `task['status'] = 'cancelled'` of the task stored
under the given id, as a functional update of the table. -/
def setStatus (table : TaskTable) (task_id : String) (st : TaskStatus) :
    TaskTable :=
  table.map (fun kv => if kv.1 = task_id then (kv.1, ⟨st, kv.2.payload⟩) else kv)

/-- TaskScheduler.cancel_task (src/scraper/scheduler.py lines 178-187):
if the id is present and the task's status is scheduled or queued, the
schedule is cleared, the status becomes cancelled and True is returned;
in every other case False is returned and the table is untouched. -/
def cancel_task (table : TaskTable) (task_id : String) : Bool × TaskTable :=
  match table.lookup task_id with
  | none => (false, table)
  | some task =>
    if task.status = TaskStatus.scheduled ∨ task.status = TaskStatus.queued then
      (true, setStatus table task_id TaskStatus.cancelled)
    else (false, table)

/-- A listing container as seen by ProductDataCollector
(src/scraper/product_collector.py), reduced to the text of the first
matching title selector (`none` when no title selector matches). -/
structure CollectorItem where
  title_text : Option String
deriving DecidableEq

/-- Whether the first list is an initial segment of the second
(the anchored part of the regex alternation in _extract_title, and the
Python `in` test below). -/
def leadsWith : List Char → List Char → Bool
  | [], _ => true
  | _ :: _, [] => false
  | a :: as, b :: bs => a = b && leadsWith as bs

/-- Whether the first list occurs contiguously inside the second (the
Python `in` operator on strings). -/
def listContains (pat : List Char) : List Char → Bool
  | [] => leadsWith pat []
  | c :: cs => leadsWith pat (c :: cs) || listContains pat cs

/-- Splitting a character list at whitespace, keeping the (possibly empty)
pieces between whitespace characters: the helper behind the Python
str.split() in _extract_title. -/
def splitWsGo (acc : List Char) : List Char → List (List Char)
  | [] => [acc.reverse]
  | c :: cs =>
    if c.isWhitespace then acc.reverse :: splitWsGo [] cs
    else splitWsGo (c :: acc) cs

/-- Python whitespace normalization as used in _extract_title:
`.strip()` followed by joining `.split()` with single spaces — the
non-empty whitespace-separated words joined by one space each. -/
def normalizeWs (cs : List Char) : List Char :=
  List.intercalate [' '] ((splitWsGo [] cs).filter (fun w => w ≠ []))

/-- ProductDataCollector._extract_title (src/scraper/product_collector.py
lines 140-149): the matched title text with one leading "New Listing",
"NEW LISTING" or "New" prefix removed (the anchored regex alternatives, in
order), stripped, and internal whitespace runs collapsed to single
spaces. -/
def _extract_title (item : CollectorItem) : Option String :=
  match item.title_text with
  | none => none
  | some t =>
    let cs := t.toList
    let cs1 :=
      if leadsWith ("New Listing").toList cs then cs.drop 11
      else if leadsWith ("NEW LISTING").toList cs then cs.drop 11
      else if leadsWith ("New").toList cs then cs.drop 3
      else cs
    some (String.mk (normalizeWs cs1))

/-- ProductDataCollector.extract_product_details
(src/scraper/product_collector.py lines 87-138).  After the title check,
the code calls `self._extract_link(item_elem)` — a method that is not
defined anywhere on the class — so every call that passes the title check
raises AttributeError, which the surrounding `except Exception` handler
catches, logging and returning None.  Hence no call ever emits a record:
the function is constantly None, through one of its three None paths
(falsy title, "Shop on eBay" title, or the caught AttributeError). -/
def extract_product_details (item : CollectorItem) : Option ItemData :=
  match _extract_title item with
  | none => none
  | some t =>
    if t = "" then none
    else if listContains ("Shop on eBay").toList t.toList then none
    else none

/-- The delay law the spec states for safeNavigate backoff.  Modelled from
the spec: delay = base * 2 ^ attempt, jittered by a relative factor j with
-1/2 ≤ j ≤ 1/2 (plus or minus fifty percent), base about one second.  This
definition follows the spec words, for comparison with the embedded
safe_get. -/
def specBackoffDelay (base : ℚ) (attempt : Nat) (j : ℚ) : ℚ :=
  base * 2 ^ attempt * (1 + j)

/-- A listing container whose four required elements are all present but
whose price text contains no digits, so extract_price returns None for
it. -/
def freeItem : ItemElems :=
  ⟨some "Ring", some "Free", some "https://www.ebay.com/itm/1",
    some "https://i.ebayimg.com/a.jpg", none, none⟩

/-- The record extract_item_data builds for freeItem. -/
def freeRec : ItemData :=
  ⟨"Ring", none, "https://www.ebay.com/itm/1", "https://i.ebayimg.com/a.jpg",
    none, none⟩

/-- A listing container whose title element is present but carries empty
text (the presence check `all([title_elem, ...])` passes on such an
element). -/
def emptyTitleItem : ItemElems :=
  ⟨some "", some "Free", some "https://www.ebay.com/itm/2",
    some "https://i.ebayimg.com/b.jpg", none, none⟩

/-- A well-formed listing record, used to exhibit duplicate urls in a job
result. -/
def dupRec : ItemData :=
  ⟨"Gold Ring", some 1, "https://www.ebay.com/itm/42",
    "https://i.ebayimg.com/42.jpg", none, none⟩

/-- The i-th of the ten listing records page p yields in the budget
scenario; records on one page differ in their url. -/
def mkListing (p i : Nat) : ItemData :=
  ⟨"t", some 1, "https://www.ebay.com/itm/" ++ toString p ++ "-" ++ toString i,
    "https://i.ebayimg.com/x.jpg", none, none⟩

/-- A page stub on which every page yields ten valid listings. -/
def tenListings (p : Nat) : List ItemData :=
  (List.range 10).map (mkListing p)

/-- A page environment in which everything succeeds and one listing (with
all required elements) is present. -/
def goodPage : PageEnv := ⟨true, false, false, false, false, [freeItem]⟩

/-- A page environment in which a bot challenge is detected after a
successful load and persists after the cooldown sleep. -/
def captchaPage : PageEnv := ⟨true, false, true, true, false, [freeItem]⟩

/-- The same page with the challenge gone after the cooldown. -/
def captchaClearedPage : PageEnv := ⟨true, false, true, false, false, [freeItem]⟩

/-- A page environment in which the element wait times out but the page
source nevertheless parses to one listing (content loaded during the later
scroll). -/
def timeoutPage : PageEnv := ⟨true, true, false, false, false, [freeItem]⟩

/-- A navigation stub that fails the first two attempts and succeeds on the
third, with no anti-bot detection. -/
def failTwice : NavEnv := ⟨fun a => decide (2 ≤ a), fun _ => false⟩

/-- A two-task table: a completed task and a queued task. -/
def exTable : TaskTable :=
  [("t1", ⟨TaskStatus.completed, "crawl rings"⟩),
   ("t2", ⟨TaskStatus.queued, "crawl necklaces"⟩)]

/-! Helper lemmas about the orchestrator loop. -/

theorem processItems_length_le {α : Type} (max_items : Nat) :
    ∀ (items all_items : List α), all_items.length ≤ max_items →
      (processItems max_items all_items items).length ≤ max_items := by
  intro items
  induction items with
  | nil => intro all_items h; simpa [processItems] using h
  | cons item rest ih =>
    intro all_items h
    unfold processItems
    by_cases hfull : max_items ≤ all_items.length
    · simpa [hfull] using h
    · have : (all_items ++ [item]).length ≤ max_items := by
        simp only [List.length_append, List.length_singleton]
        omega
      simpa [hfull] using ih (all_items ++ [item]) this

theorem processItems_length_ge {α : Type} (max_items : Nat) :
    ∀ (items all_items : List α),
      all_items.length ≤ (processItems max_items all_items items).length := by
  intro items
  induction items with
  | nil => intro all_items; simp [processItems]
  | cons item rest ih =>
    intro all_items
    unfold processItems
    by_cases hfull : max_items ≤ all_items.length
    · simp [hfull]
    · have := ih (all_items ++ [item])
      simp only [List.length_append, List.length_singleton] at this
      simp only [hfull, if_neg, ite_false]
      omega

theorem scrapeGo_length_le {α : Type} (pages : Nat → List α) (max_items : Nat) :
    ∀ (ps : List Nat) (all_items : List α), all_items.length ≤ max_items →
      (scrapeGo pages max_items ps all_items).length ≤ max_items := by
  intro ps
  induction ps with
  | nil => intro all_items h; simpa [scrapeGo] using h
  | cons p rest ih =>
    intro all_items h
    unfold scrapeGo
    by_cases hlt : all_items.length < max_items
    · by_cases he : (pages p).isEmpty
      · simpa [hlt, he] using h
      · simpa [hlt, he] using
          ih (processItems max_items all_items (pages p))
            (processItems_length_le max_items (pages p) all_items h)
    · simpa [hlt] using h

theorem scrapeGo_length_ge {α : Type} (pages : Nat → List α) (max_items : Nat) :
    ∀ (ps : List Nat) (all_items : List α),
      all_items.length ≤ (scrapeGo pages max_items ps all_items).length := by
  intro ps
  induction ps with
  | nil => intro all_items; simp [scrapeGo]
  | cons p rest ih =>
    intro all_items
    unfold scrapeGo
    by_cases hlt : all_items.length < max_items
    · by_cases he : (pages p).isEmpty
      · simp [hlt, he]
      · have h1 := processItems_length_ge max_items (pages p) all_items
        have h2 := ih (processItems max_items all_items (pages p))
        simp only [hlt, he, if_pos, if_neg, Bool.false_eq_true, ite_false]
        omega
    · simp [hlt]

/-- C3: for every crawl job the result list never contains more than
maxItems records; and a job with maxItems = 5 over pages that each yield 10
valid listings returns exactly 5 records, the first 5 of page 1 in
page-then-container order. -/
theorem scrape_category_budget :
    (∀ (α : Type) (pages : Nat → List α) (max_items max_pages : Nat),
        (scrape_category pages max_items max_pages).length ≤ max_items) ∧
    scrape_category tenListings 5 3 = (List.range 5).map (mkListing 1) := by
  constructor
  · intro α pages max_items max_pages
    exact scrapeGo_length_le pages max_items (pageList 1 max_pages) [] (by simp)
  · rfl

/-- C2 counterexample: a job whose single page yields the same record twice
returns both copies, so the result contains two records with the same url —
scrape_category performs no deduplication by url. -/
theorem scrape_category_dup_url_cex :
    scrape_category (fun _ => [dupRec, dupRec]) 10 1 = [dupRec, dupRec] ∧
    ¬ (List.map ItemData.url (scrape_category (fun _ => [dupRec, dupRec]) 10 1)).Nodup := by
  refine ⟨rfl, ?_⟩
  decide

/-- C2 amended: records are appended in page-then-container order with no
deduplication — a page yielding the same record twice contributes both
copies to the job result (when the budget allows). -/
theorem scrape_category_no_dedup :
    ∀ (r : ItemData) (max_items : Nat), 2 ≤ max_items →
      scrape_category (fun _ => [r, r]) max_items 1 = [r, r] := by
  intro r max_items h
  have h0 : 0 < max_items := by omega
  have h1 : ¬ max_items ≤ 0 := by omega
  have h2 : ¬ max_items ≤ 1 := by omega
  simp [scrape_category, pageList, scrapeGo, processItems, h0, h1, h2]

/-- Witness for the amended C2 theorem at a concrete record and budget. -/
theorem scrape_category_no_dedup_witness :
    2 ≤ 2 ∧ scrape_category (fun _ => [dupRec, dupRec]) 2 1 = [dupRec, dupRec] :=
  ⟨by norm_num, scrape_category_no_dedup dupRec 2 (by norm_num)⟩

/-- C4 counterexample: a job that collects zero records across all pages
returns the empty list as a normal return value — scrape_category has no
error channel and no NoResultsError exists anywhere in the code; the
zero-record case only logs a warning (src/scraper/core.py lines 293-299). -/
theorem scrape_category_empty_success_cex :
    scrape_category (fun _ => ([] : List ItemData)) 100 5 = [] := rfl

/-- C4 amended: a job always returns exactly the records it collected —
partial results are returned as a success — and the result is empty iff
nothing was collectable: the budget is zero, the page limit is zero, or
page 1 already yields no records.  The empty result is a normal return, not
a NoResultsError failure. -/
theorem scrapeGo_cons_ne_nil {α : Type} (pages : Nat → List α)
    (max_items : Nat) (p : Nat) (rest : List Nat)
    (h0 : 0 < max_items) (hp : pages p ≠ []) :
    scrapeGo pages max_items (p :: rest) [] ≠ [] := by
  rcases hq : pages p with _ | ⟨x, xs⟩
  · exact absurd hq hp
  have hstep : scrapeGo pages max_items (p :: rest) []
      = scrapeGo pages max_items rest (processItems max_items [] (x :: xs)) := by
    simp only [scrapeGo]
    rw [hq]
    simp [h0]
  rw [hstep]
  intro hnil
  have hge := scrapeGo_length_ge pages max_items rest
    (processItems max_items [] (x :: xs))
  have h1 : 1 ≤ (processItems max_items [] (x :: xs)).length := by
    unfold processItems
    have hno : ¬ max_items ≤ ([] : List α).length := by simp; omega
    rw [if_neg hno]
    simpa using processItems_length_ge max_items xs [x]
  rw [hnil] at hge
  simp only [List.length_nil] at hge
  omega

theorem scrape_category_empty_iff :
    ∀ {α : Type} (pages : Nat → List α) (max_items max_pages : Nat),
      scrape_category pages max_items max_pages = [] ↔
        max_items = 0 ∨ max_pages = 0 ∨ pages 1 = [] := by
  intro α pages max_items max_pages
  constructor
  · intro h
    by_contra hc
    push_neg at hc
    obtain ⟨hmi, hmp, hp1⟩ := hc
    obtain ⟨k, rfl⟩ : ∃ k, max_pages = k + 1 := ⟨max_pages - 1, by omega⟩
    exact scrapeGo_cons_ne_nil pages max_items 1 (pageList 2 k)
      (by omega) hp1 h
  · intro h
    rcases h with h | h | h
    · subst h
      rcases hps : pageList 1 max_pages with _ | ⟨p, rest⟩
      · rw [scrape_category, hps]; rfl
      · rw [scrape_category, hps]
        simp only [scrapeGo]
        simp
    · subst h
      rfl
    · rcases max_pages with _ | k
      · rfl
      · show scrapeGo pages max_items (1 :: pageList 2 k) [] = []
        simp only [scrapeGo]
        rcases Nat.eq_zero_or_pos max_items with hz | hpos
        · simp [hz]
        · simp [hpos, h]

/-- C1 counterexample: a listing whose four required elements are present
but whose price text ("Free") contains no digits is emitted with
price = None — the extractor does not reject records whose price text fails
to parse to a positive number, contradicting the required-field
invariant. -/
theorem extract_item_data_price_cex :
    extract_item_data freeItem = (some freeRec, 1) ∧ freeRec.price = none :=
  ⟨by decide, rfl⟩

/-- C1 amended: extract_item_data emits a record exactly when the four
elements (title, price, link, image) are present in the container and the
price text does not raise in float() — in one direction every emitted
record carries the element values verbatim (so a listing missing any
required element is never emitted, and url/imageURL come from elements
matched by attribute-containing selectors), and conversely presence of the
four elements together with a non-raising price parse forces emission of
exactly that record; the price field is just the parse result and may be
None (unparsable text) or not strictly positive, and the title may be the
empty string, as the emptyTitleItem conjunct witnesses.
extract_product_details of the product collector never emits any record at
all: its _extract_link helper is undefined on the class, so every call past
the title check raises AttributeError and is caught, returning None. -/
theorem extract_item_data_amended :
    (∀ (item : ItemElems) (r : ItemData), (extract_item_data item).1 = some r →
      item.title_text = some r.title ∧ item.link_href = some r.url ∧
      item.img_src = some r.image_url ∧ item.condition_text = r.condition ∧
      ∃ pt, item.price_text = some pt ∧
        extract_price pt = PriceResult.value r.price) ∧
    (∀ (item : ItemElems) (t pt l i : String) (q : Option ℚ),
      item.title_text = some t → item.price_text = some pt →
      item.link_href = some l → item.img_src = some i →
      extract_price pt = PriceResult.value q →
      (extract_item_data item).1
        = some ⟨t, q, l, i, item.condition_text, item.subtitle_text⟩) ∧
    (extract_item_data emptyTitleItem).1
      = some ⟨"", none, "https://www.ebay.com/itm/2",
          "https://i.ebayimg.com/b.jpg", none, none⟩ ∧
    (∀ c : CollectorItem, extract_product_details c = none) := by
  refine ⟨?_, ?_, by decide, ?_⟩
  · intro item r h
    obtain ⟨tO, pO, lO, iO, cO, sO⟩ := item
    rcases tO with _ | t
    · simp [extract_item_data] at h
    rcases pO with _ | p
    · simp [extract_item_data] at h
    rcases lO with _ | l
    · simp [extract_item_data] at h
    rcases iO with _ | i
    · simp [extract_item_data] at h
    simp only [extract_item_data] at h
    rcases hq : extract_price p with q | _
    · rw [hq] at h
      have hdata : r = ⟨t, q, l, i, cO, sO⟩ := by
        by_cases hl : l = ""
        · subst hl; simp at h; exact h.symm
        · simp [hl] at h; exact h.symm
      subst hdata
      exact ⟨rfl, rfl, rfl, rfl, p, rfl, hq⟩
    · rw [hq] at h
      simp at h
  · intro item t pt l i q ht hp hlk hi hq
    obtain ⟨tO, pO, lO, iO, cO, sO⟩ := item
    simp only at ht hp hlk hi
    subst ht; subst hp; subst hlk; subst hi
    simp only [extract_item_data, hq]
    by_cases hl : l = "" <;> simp [hl]
  · intro c
    rcases hc : _extract_title c with _ | t
    · simp [extract_product_details, hc]
    · simp only [extract_product_details, hc]
      split_ifs <;> rfl

/-- Witness for the amended C1 theorem: its only-if direction applied to
the concrete emitted record of freeItem, and its emission direction applied
to freeItem's concrete elements and parse result. -/
theorem extract_item_data_amended_witness :
    (freeItem.title_text = some freeRec.title ∧
      freeItem.link_href = some freeRec.url ∧
      freeItem.img_src = some freeRec.image_url ∧
      freeItem.condition_text = freeRec.condition ∧
      ∃ pt, freeItem.price_text = some pt ∧
        extract_price pt = PriceResult.value freeRec.price) ∧
    (extract_item_data freeItem).1
      = some ⟨"Ring", none, "https://www.ebay.com/itm/1",
          "https://i.ebayimg.com/a.jpg", freeItem.condition_text,
          freeItem.subtitle_text⟩ :=
  ⟨extract_item_data_amended.1 freeItem freeRec (by decide),
    extract_item_data_amended.2.1 freeItem "Ring" "Free"
      "https://www.ebay.com/itm/1" "https://i.ebayimg.com/a.jpg" none
      rfl rfl rfl rfl (by decide)⟩

/-- C5 counterexample: a one-page job whose page yields one emitted listing
(with a non-empty url) creates two browser sessions, not one — the driver
scrape_category sets up before the page loop, plus the fresh WebDriver
get_product_details creates for the listing while that driver is still
alive. -/
theorem scrape_category_env_sessions_cex :
    (scrape_category_env (fun _ => goodPage) 10 1).2 = 2 := by decide

/-- C5 amended: the orchestrator acquires one browser session before the
page loop, but each emitted listing with a non-empty url causes
get_product_details to create one additional session mid-job: a one-page
job over listing containers L creates 1 + (sessions per container) sessions
in total. -/
theorem scrape_category_env_sessions :
    ∀ (L : List ItemElems) (max_items : Nat), 0 < max_items →
      (scrape_category_env
          (fun _ => (⟨true, false, false, false, false, L⟩ : PageEnv))
          max_items 1).2
        = 1 + ((L.map extract_item_data).map Prod.snd).sum := by
  intro L max_items h
  simp only [scrape_category_env, pageList, scrapeGoEnv, scrape_page]
  simp only [Bool.not_true, Bool.false_eq_true, if_false, ite_false]
  simp [h]
  split <;> simp [scrapeGoEnv]

/-- Witness for the amended C5 theorem at a concrete page. -/
theorem scrape_category_env_sessions_witness :
    0 < 10 ∧
      (scrape_category_env
          (fun _ => (⟨true, false, false, false, false, [freeItem]⟩ : PageEnv))
          10 1).2
        = 1 + (([freeItem].map extract_item_data).map Prod.snd).sum :=
  ⟨by norm_num, scrape_category_env_sessions [freeItem] 10 (by norm_num)⟩

/-- C6 counterexample: on a page whose bot challenge persists after the
cooldown, scrape_page sleeps the cooldown exactly once and then succeeds,
parsing and returning the listings — no re-check happens (the result is the
same whether the challenge persists or clears) and no ChallengeDetected
error is ever returned to the caller. -/
theorem scrape_page_challenge_cex :
    scrape_page captchaPage = ⟨[freeRec], 1, 1⟩ ∧
    scrape_page captchaPage = scrape_page captchaClearedPage :=
  ⟨by decide, by decide⟩

/-- C6 amended: when a challenge is detected after a successful page load,
the navigation sleeps the fixed cooldown exactly once and then proceeds
unconditionally: no re-check is performed (the outcome is independent of
whether the challenge persists) and the call succeeds either way; no
ChallengeDetected error exists.  Likewise _handle_antibot inside safe_get
sleeps once, rotates identity, and reports the navigation successful. -/
theorem challenge_cooldown_amended :
    (∀ (env : PageEnv) (b : Bool),
        scrape_page { env with captchaPersists := b } = scrape_page env) ∧
    (∀ env : PageEnv,
        (scrape_page env).cooldowns
          = if env.navOk = true ∧ env.captcha = true then 1 else 0) ∧
    (∀ (e : NavEnv) (u : Nat → ℚ) (max_retries : Nat),
        0 < max_retries → e.navOk 0 = true → e.antibot 0 = true →
        safe_get e u max_retries = ⟨true, [], 1⟩) := by
  refine ⟨?_, ?_, ?_⟩
  · intro env b
    cases env
    rfl
  · intro env
    rcases env with ⟨nav, w, cap, per, snap, L⟩
    cases nav <;> cases cap <;> cases snap <;> simp [scrape_page]
  · intro e u max_retries hmr h0 hab
    obtain ⟨k, rfl⟩ : ∃ k, max_retries = k + 1 := ⟨max_retries - 1, by omega⟩
    simp [safe_get, pageList, safe_get_loop, h0, hab]

/-- Witness for the amended C6 theorem: a first-attempt success with the
anti-bot heuristic firing yields one sleep and a successful call. -/
theorem challenge_cooldown_amended_witness :
    0 < 3 ∧
      safe_get ⟨fun _ => true, fun _ => true⟩ (fun _ => 0) 3 = ⟨true, [], 1⟩ :=
  ⟨by norm_num,
    challenge_cooldown_amended.2.2 ⟨fun _ => true, fun _ => true⟩ (fun _ => 0) 3
      (by norm_num) rfl rfl⟩

/-- C7 counterexample: with a stub failing twice then succeeding and the
smallest possible random draws, safe_get succeeds with exactly two backoff
sleeps of 2 seconds each — but no jitter value j with -1/2 ≤ j ≤ 1/2 makes
the claimed first-attempt delay base * 2 ^ 0 * (1 + j) (base = 1 s) equal
to the observed 2 seconds, so the exponential-backoff delay law is false of
the code (its delay is uniform in [2, 5], independent of the attempt). -/
theorem safe_get_backoff_cex :
    safe_get failTwice (fun _ => 0) 3 = ⟨true, [2, 2], 0⟩ ∧
    ¬ ∃ j : ℚ, -(1 / 2) ≤ j ∧ j ≤ 1 / 2 ∧ specBackoffDelay 1 0 j = 2 := by
  constructor
  · simp [safe_get, pageList, safe_get_loop, failTwice]
  · rintro ⟨j, h1, h2, h3⟩
    simp [specBackoffDelay] at h3
    linarith

/-- C7 amended: safe_get retries up to max_retries (default 3) and sleeps a
uniformly drawn delay of 2 + 3u seconds (u the per-attempt draw in [0, 1],
so the delay lies in [2, 5] regardless of the attempt index) between
attempts; with a stub that fails twice then succeeds on the third attempt,
the call succeeds with exactly 2 backoff sleeps. -/
theorem safe_get_retry_amended :
    ∀ (u : Nat → ℚ), (∀ a, 0 ≤ u a ∧ u a ≤ 1) →
      safe_get failTwice u 3 = ⟨true, [2 + 3 * u 0, 2 + 3 * u 1], 0⟩ ∧
      ∀ a : Nat, 2 ≤ 2 + 3 * u a ∧ 2 + 3 * u a ≤ 5 := by
  intro u hu
  constructor
  · simp [safe_get, pageList, safe_get_loop, failTwice]
  · intro a
    obtain ⟨hl, hr⟩ := hu a
    constructor <;> linarith

/-- Witness for the amended C7 theorem at the all-zero draw. -/
theorem safe_get_retry_amended_witness :
    (∀ a : Nat, 0 ≤ (0 : ℚ) ∧ (0 : ℚ) ≤ 1) ∧
      safe_get failTwice (fun _ => 0) 3 = ⟨true, [2 + 3 * 0, 2 + 3 * 0], 0⟩ :=
  ⟨fun _ => ⟨by norm_num, by norm_num⟩,
    (safe_get_retry_amended (fun _ => 0) (fun _ => ⟨by norm_num, by norm_num⟩)).1⟩

theorem lookup_setStatus_self (st : TaskStatus) :
    ∀ (table : TaskTable) (task_id : String) (task : STask),
      table.lookup task_id = some task →
      (setStatus table task_id st).lookup task_id = some ⟨st, task.payload⟩ := by
  intro table
  induction table with
  | nil => intro tid task h; exact absurd h (by simp [List.lookup])
  | cons kv rest ih =>
    intro tid task h
    by_cases hk : tid = kv.1
    · have hbeq : (tid == kv.1) = true := by simp [hk]
      simp only [List.lookup, hbeq] at h
      injection h with h
      have hself : kv.1 = tid := hk.symm
      simp only [setStatus, List.map_cons]
      rw [if_pos hself]
      simp only [List.lookup, hbeq]
      rw [← h]
    · have hbeq : (tid == kv.1) = false := beq_eq_false_iff_ne.mpr hk
      simp only [List.lookup, hbeq] at h
      have hk2 : ¬ kv.1 = tid := fun e => hk e.symm
      simp only [setStatus, List.map_cons]
      rw [if_neg hk2]
      simp only [List.lookup, hbeq]
      exact ih tid task h

theorem lookup_setStatus_other (st : TaskStatus) :
    ∀ (table : TaskTable) (task_id other_id : String),
      other_id ≠ task_id →
      (setStatus table task_id st).lookup other_id = table.lookup other_id := by
  intro table
  induction table with
  | nil => intro tid oid h; rfl
  | cons kv rest ih =>
    intro tid oid h
    by_cases hko : oid = kv.1
    · have hbeq : (oid == kv.1) = true := by simp [hko]
      have hkt : ¬ kv.1 = tid := fun e => h (hko.trans e)
      simp only [setStatus, List.map_cons]
      rw [if_neg hkt]
      simp only [List.lookup, hbeq]
    · have hbeq : (oid == kv.1) = false := beq_eq_false_iff_ne.mpr hko
      by_cases hkt : kv.1 = tid
      · simp only [setStatus, List.map_cons]
        rw [if_pos hkt]
        simp only [List.lookup, hbeq]
        exact ih tid oid h
      · simp only [setStatus, List.map_cons]
        rw [if_neg hkt]
        simp only [List.lookup, hbeq]
        exact ih tid oid h

/-- C8: cancel_task returns true exactly when the task exists and its
status is scheduled or queued — and then that task transitions to
cancelled in the resulting table, its payload and every other entry left
untouched; in every other case — a missing id or a task in any other
state, a completed one in particular — it returns false and leaves the
table unchanged. -/
theorem cancel_task_spec :
    ∀ (table : TaskTable) (task_id : String),
      ((cancel_task table task_id).1 = true ↔
        ∃ task, table.lookup task_id = some task ∧
          (task.status = TaskStatus.scheduled ∨ task.status = TaskStatus.queued)) ∧
      ((cancel_task table task_id).1 = false →
        (cancel_task table task_id).2 = table) ∧
      (∀ task, table.lookup task_id = some task →
        task.status ≠ TaskStatus.scheduled → task.status ≠ TaskStatus.queued →
        cancel_task table task_id = (false, table)) ∧
      (∀ task, table.lookup task_id = some task →
        (task.status = TaskStatus.scheduled ∨ task.status = TaskStatus.queued) →
        (cancel_task table task_id).1 = true ∧
        ((cancel_task table task_id).2).lookup task_id
          = some ⟨TaskStatus.cancelled, task.payload⟩ ∧
        ∀ other_id, other_id ≠ task_id →
          ((cancel_task table task_id).2).lookup other_id
            = table.lookup other_id) := by
  intro table task_id
  rcases hl : table.lookup task_id with _ | task
  · refine ⟨by simp [cancel_task, hl], by simp [cancel_task, hl], ?_, ?_⟩
    · intro t ht
      exact absurd ht (by simp)
    · intro t ht
      exact absurd ht (by simp)
  · by_cases hs : task.status = TaskStatus.scheduled ∨ task.status = TaskStatus.queued
    · refine ⟨by simp [cancel_task, hl, hs], by simp [cancel_task, hl, hs],
        ?_, ?_⟩
      · intro t ht h1 h2
        injection ht with ht
        subst ht
        rcases hs with hs | hs
        · exact absurd hs h1
        · exact absurd hs h2
      · intro t ht hst
        injection ht with ht
        subst ht
        have hpair : cancel_task table task_id
            = (true, setStatus table task_id TaskStatus.cancelled) := by
          simp [cancel_task, hl, hs]
        refine ⟨by simp [hpair], ?_, ?_⟩
        · rw [hpair]
          exact lookup_setStatus_self TaskStatus.cancelled table task_id task hl
        · intro other_id ho
          rw [hpair]
          exact lookup_setStatus_other TaskStatus.cancelled table task_id
            other_id ho
    · refine ⟨by simp [cancel_task, hl, hs], by simp [cancel_task, hl, hs],
        ?_, ?_⟩
      · intro t ht h1 h2
        simp [cancel_task, hl, hs]
      · intro t ht hst
        injection ht with ht
        subst ht
        exact absurd hst hs

/-- Witness for the C8 theorem: cancelling the completed task t1 of the
concrete table returns false and leaves the table unchanged, while
cancelling the queued task t2 returns true, sets t2 to cancelled, and
leaves t1 untouched. -/
theorem cancel_task_spec_witness :
    (exTable.lookup "t1" = some ⟨TaskStatus.completed, "crawl rings"⟩ ∧
      cancel_task exTable "t1" = (false, exTable)) ∧
    (exTable.lookup "t2" = some ⟨TaskStatus.queued, "crawl necklaces"⟩ ∧
      (cancel_task exTable "t2").1 = true ∧
      ((cancel_task exTable "t2").2).lookup "t2"
        = some ⟨TaskStatus.cancelled, "crawl necklaces"⟩ ∧
      ((cancel_task exTable "t2").2).lookup "t1" = exTable.lookup "t1") :=
  ⟨⟨by decide,
    (cancel_task_spec exTable "t1").2.2.1 ⟨TaskStatus.completed, "crawl rings"⟩
      (by decide) (by decide) (by decide)⟩,
   ⟨by decide,
    ((cancel_task_spec exTable "t2").2.2.2 ⟨TaskStatus.queued, "crawl necklaces"⟩
      (by decide) (Or.inr rfl)).1,
    ((cancel_task_spec exTable "t2").2.2.2 ⟨TaskStatus.queued, "crawl necklaces"⟩
      (by decide) (Or.inr rfl)).2.1,
    ((cancel_task_spec exTable "t2").2.2.2 ⟨TaskStatus.queued, "crawl necklaces"⟩
      (by decide) (Or.inr rfl)).2.2 "t1" (by decide)⟩⟩

/-- C9 counterexample: an element-wait timeout does not make scrape_page
return the empty list — the wait's None result is discarded and extraction
proceeds, so a page whose listings materialize later (e.g. during the
scroll) still yields records.  The totality and failure-to-empty parts of
the claim hold and are the amended theorem. -/
theorem scrape_page_wait_timeout_cex :
    scrape_page timeoutPage = ⟨[freeRec], 1, 0⟩ ∧
    (scrape_page timeoutPage).items ≠ [] :=
  ⟨by decide, by decide⟩

/-- C9 amended: scrape_page is total (by construction of the embedding: all
exceptions are caught) and any navigation failure or raised exception
before extraction yields the empty list, indistinguishable from a genuine
zero-listing page; an element-wait timeout alone, however, is logged and
ignored — the result is the same as without the timeout, so it yields []
only when the parsed page has no extractable listings. -/
theorem scrape_page_total_amended :
    ∀ env : PageEnv,
      (env.navOk = false ∨ env.snapshotRaises = true →
        (scrape_page env).items = []) ∧
      scrape_page { env with waitTimedOut := true }
        = scrape_page { env with waitTimedOut := false } ∧
      (scrape_page { env with listings := [] }).items = [] := by
  intro env
  rcases env with ⟨nav, w, cap, per, snap, L⟩
  refine ⟨?_, rfl, ?_⟩
  · rintro (h | h)
    · rw [show nav = false from h]
      rfl
    · rw [show snap = true from h]
      cases nav <;> simp [scrape_page]
  · cases nav <;> cases snap <;> simp [scrape_page]

/-- Witness for the amended C9 theorem: a failed navigation yields the
empty item list. -/
theorem scrape_page_total_amended_witness :
    ((⟨false, false, false, false, false, [freeItem]⟩ : PageEnv).navOk = false) ∧
      (scrape_page ⟨false, false, false, false, false, [freeItem]⟩).items = [] :=
  ⟨rfl, (scrape_page_total_amended ⟨false, false, false, false, false, [freeItem]⟩).1
    (Or.inl rfl)⟩

/-- C10: get_task_status of a task id absent from the task table returns
None — the embedding of the Python dict .get, which raises nothing and, as
a pure read, leaves the table unchanged. -/
theorem get_task_status_missing :
    ∀ (table : TaskTable) (task_id : String),
      task_id ∉ table.map Prod.fst → get_task_status table task_id = none := by
  intro table task_id h
  induction table with
  | nil => rfl
  | cons kv rest ih =>
    simp only [List.map_cons, List.mem_cons] at h
    push_neg at h
    obtain ⟨h1, h2⟩ := h
    have hb : (task_id == kv.1) = false := beq_eq_false_iff_ne.mpr h1
    simp only [get_task_status, List.lookup, hb]
    exact ih h2

/-- Witness for the C10 theorem at a concrete table and an unknown id. -/
theorem get_task_status_missing_witness :
    "t9" ∉ exTable.map Prod.fst ∧ get_task_status exTable "t9" = none :=
  ⟨by decide, get_task_status_missing exTable "t9" (by decide)⟩

end EbayScraper
